import Mathlib

/-!
# Verification of the Symbolic-Equation-Solver repository

Shallow embedding of `backend/utils/plot3dSolver.js` (`generate3DData`),
`frontend/src/components/Plot3D.js` (`useFunction3D`), and
`backend/utils/mathSolver.js` (classifier and `solveMathExpression`),
together with proofs settling the frozen specification claims.

Modelling conventions:
* JavaScript numbers are modelled by `ℚ`.  Every arithmetic operation the
  claims touch (`xMin + (xMax - xMin) * (i / res)`, squaring, min/max) is
  exact on the inputs the claims use, so no floating-point rounding issue
  arises in them.
* `evaluate3DFunction` performs textual substitution of `x`/`y` into the
  equation string and calls the external math.js `evaluate`; it throws when
  the evaluation throws or returns a non-finite value.  Its observable
  behaviour at a sample point is therefore a partial numeric function, which
  we model as `f : ℚ → ℚ → Option ℚ` (`none` = the call threw / non-finite).
* `minZ`/`maxZ` start at `Infinity`/`-Infinity` in the JS code; we model the
  "no valid sample seen yet" state by `Option ℚ` (`none` = still infinite).
* `computationTime` (wall clock) is omitted: it is not a functional value.
-/

namespace Plot3D

/-- JavaScript `a || b` on a number `a` (used for the domain defaults
`domain.x[0] || -5` etc.): `0` is falsy, every other number is truthy. -/
def jsOrQ (a b : ℚ) : ℚ := if a = 0 then b else a

/-- JavaScript `resolution || 50` on an integer resolution: `0` is falsy. -/
def jsOrZ (a : ℤ) (b : ℤ) : ℤ := if a = 0 then b else a

/-- `Math.max(10, Math.min(100, resolution || 50))` from
`plot3dSolver.js` line 76, as a natural number (the result is ≥ 10). -/
def effRes (resolution : ℤ) : ℕ := (max 10 (min 100 (jsOrZ resolution 50))).toNat

/-- Sample x-coordinate: `x = xMin + (xMax - xMin) * (i / res)`. -/
def sampleX (xMin xMax : ℚ) (res : ℕ) (i : ℕ) : ℚ :=
  xMin + (xMax - xMin) * ((i : ℚ) / (res : ℚ))

/-- Sample y-coordinate: `y = yMin + (yMax - yMin) * (j / res)`. -/
def sampleY (yMin yMax : ℚ) (res : ℕ) (j : ℕ) : ℚ :=
  yMin + (yMax - yMin) * ((j : ℚ) / (res : ℚ))

/-- The mutable state of the sampling loop of `generate3DData`
(lines 78–109): the `vertices` array, the running `minZ`/`maxZ`
(`none` = still at the `Infinity` initial value) and `validCount`. -/
structure GridState where
  vertices : List ℚ
  minZ : Option ℚ
  maxZ : Option ℚ
  validCount : ℕ
  deriving Repr, DecidableEq

/-- One iteration of the inner sampling loop (lines 91–107): on a valid
evaluation push `(x, y, z)`, update the running min/max and the counter;
on a thrown/non-finite evaluation push the placeholder `(x, y, 0)`. -/
def pushSample (f : ℚ → ℚ → Option ℚ) (x y : ℚ) (s : GridState) : GridState :=
  match f x y with
  | some z =>
    { vertices := s.vertices ++ [x, y, z]
      minZ := some (match s.minZ with | none => z | some m => min m z)
      maxZ := some (match s.maxZ with | none => z | some m => max m z)
      validCount := s.validCount + 1 }
  | none =>
    { vertices := s.vertices ++ [x, y, 0]
      minZ := s.minZ
      maxZ := s.maxZ
      validCount := s.validCount }

/-- The sequence of loop indices `(i, j)` visited by the nested loops
`for i in [0, res]` (outer), `for j in [0, res]` (inner), in order. -/
def gridPairs (res : ℕ) : List (ℕ × ℕ) :=
  (List.range (res + 1)).flatMap (fun i =>
    (List.range (res + 1)).map (fun j => (i, j)))

/-- The whole sampling double loop of `generate3DData` (lines 86–109). -/
def runGrid (f : ℚ → ℚ → Option ℚ) (xMin xMax yMin yMax : ℚ) (res : ℕ) :
    GridState :=
  (gridPairs res).foldl
    (fun s p => pushSample f (sampleX xMin xMax res p.1) (sampleY yMin yMax res p.2) s)
    { vertices := [], minZ := none, maxZ := none, validCount := 0 }

/-- The six index entries pushed for the quad at `(i, j)`
(lines 112–123): `a = i*(res+1)+j`, `b = a+1`, `c = a+res+1`, `d = c+1`,
triangles `(a,b,c)` and `(b,d,c)`. -/
def quadIndices (res i j : ℕ) : List ℕ :=
  let a := i * (res + 1) + j
  let b := a + 1
  let c := a + res + 1
  let d := c + 1
  [a, b, c] ++ [b, d, c]

/-- The index-generation double loop `for i in [0, res)`, `for j in [0, res)`. -/
def meshIndices (res : ℕ) : List ℕ :=
  (List.range res).flatMap (fun i =>
    (List.range res).flatMap (fun j => quadIndices res i j))

/-- The `statistics` object returned by `generate3DData`
(without `computationTime`). -/
structure Plot3DStats where
  totalPoints : ℕ
  validPoints : ℕ
  invalidPoints : ℕ
  resolution : ℕ
  deriving Repr, DecidableEq

/-- The object returned by `generate3DData`.  `boundsZ` components are
`none` when still at their `Infinity`/`-Infinity` initial values. -/
structure Plot3DResult where
  vertices : List ℚ
  indices : List ℕ
  boundsX : ℚ × ℚ
  boundsY : ℚ × ℚ
  boundsZ : Option ℚ × Option ℚ
  statistics : Plot3DStats
  deriving Repr, DecidableEq

/-- `generate3DData` (plot3dSolver.js lines 67–147).  `f` is the
observable behaviour of `evaluate3DFunction` on the given equation and
parameters (see the module docstring); the remaining arguments are
`domain.x[0]`, `domain.x[1]`, `domain.y[0]`, `domain.y[1]`, `resolution`. -/
def generate3DData (f : ℚ → ℚ → Option ℚ) (dx0 dx1 dy0 dy1 : ℚ)
    (resolution : ℤ) : Plot3DResult :=
  let xMin := jsOrQ dx0 (-5)
  let xMax := jsOrQ dx1 5
  let yMin := jsOrQ dy0 (-5)
  let yMax := jsOrQ dy1 5
  let res := effRes resolution
  let st := runGrid f xMin xMax yMin yMax res
  { vertices := st.vertices
    indices := meshIndices res
    boundsX := (xMin, xMax)
    boundsY := (yMin, yMax)
    boundsZ := (st.minZ, st.maxZ)
    statistics :=
      { totalPoints := (res + 1) * (res + 1)
        validPoints := st.validCount
        invalidPoints := (res + 1) * (res + 1) - st.validCount
        resolution := res } }

/-! ## Structural lemmas about the sampling fold -/

/-- The `(x, y, z)` block pushed on `vertices` for the sample `(i, j)`. -/
def sampleBlock (f : ℚ → ℚ → Option ℚ) (xMin xMax yMin yMax : ℚ) (res : ℕ)
    (p : ℕ × ℕ) : List ℚ :=
  let x := sampleX xMin xMax res p.1
  let y := sampleY yMin yMax res p.2
  match f x y with
  | some z => [x, y, z]
  | none => [x, y, 0]

/-- The z-values of the valid samples, in visit order. -/
def validZs (f : ℚ → ℚ → Option ℚ) (xMin xMax yMin yMax : ℚ) (res : ℕ)
    (ps : List (ℕ × ℕ)) : List ℚ :=
  ps.filterMap (fun p => f (sampleX xMin xMax res p.1) (sampleY yMin yMax res p.2))

/-- Running-minimum fold, as performed by `minZ = Math.min(minZ, z)`. -/
def minFold (m : Option ℚ) (zs : List ℚ) : Option ℚ :=
  zs.foldl (fun acc z => some (match acc with | none => z | some m => min m z)) m

/-- Running-maximum fold, as performed by `maxZ = Math.max(maxZ, z)`. -/
def maxFold (m : Option ℚ) (zs : List ℚ) : Option ℚ :=
  zs.foldl (fun acc z => some (match acc with | none => z | some m => max m z)) m

theorem foldGrid (f : ℚ → ℚ → Option ℚ) (xMin xMax yMin yMax : ℚ) (res : ℕ) :
    ∀ (ps : List (ℕ × ℕ)) (s : GridState),
      ps.foldl
        (fun s p => pushSample f (sampleX xMin xMax res p.1) (sampleY yMin yMax res p.2) s) s =
      { vertices := s.vertices ++ ps.flatMap (sampleBlock f xMin xMax yMin yMax res)
        minZ := minFold s.minZ (validZs f xMin xMax yMin yMax res ps)
        maxZ := maxFold s.maxZ (validZs f xMin xMax yMin yMax res ps)
        validCount := s.validCount + (validZs f xMin xMax yMin yMax res ps).length } := by
  intro ps
  induction ps with
  | nil => intro s; simp [validZs, minFold, maxFold]
  | cons p ps ih =>
    intro s
    rw [List.foldl_cons, ih]
    simp only [pushSample, sampleBlock, validZs, minFold, maxFold, List.flatMap_cons,
      List.filterMap_cons]
    cases hf : f (sampleX xMin xMax res p.1) (sampleY yMin yMax res p.2) with
    | some z => simp [hf, List.append_assoc, Nat.add_assoc, Nat.add_comm 1]
    | none => simp [hf, List.append_assoc]

theorem runGrid_eq (f : ℚ → ℚ → Option ℚ) (xMin xMax yMin yMax : ℚ) (res : ℕ) :
    runGrid f xMin xMax yMin yMax res =
      { vertices := (gridPairs res).flatMap (sampleBlock f xMin xMax yMin yMax res)
        minZ := minFold none (validZs f xMin xMax yMin yMax res (gridPairs res))
        maxZ := maxFold none (validZs f xMin xMax yMin yMax res (gridPairs res))
        validCount := (validZs f xMin xMax yMin yMax res (gridPairs res)).length } := by
  unfold runGrid
  rw [foldGrid]
  simp

theorem length_flatMap_const {α β : Type} (l : List α) (g : α → List β) (k : ℕ)
    (h : ∀ a ∈ l, (g a).length = k) : (l.flatMap g).length = k * l.length := by
  induction l with
  | nil => simp
  | cons a l ih =>
    simp only [List.flatMap_cons, List.length_append, List.length_cons]
    rw [h a (by simp), ih (fun b hb => h b (by simp [hb]))]
    ring

theorem gridPairs_length (res : ℕ) : (gridPairs res).length = (res + 1) * (res + 1) := by
  unfold gridPairs
  rw [length_flatMap_const _ _ (res + 1) (fun a _ => by simp)]
  simp [Nat.mul_comm]

theorem sampleBlock_length (f : ℚ → ℚ → Option ℚ) (xMin xMax yMin yMax : ℚ)
    (res : ℕ) (p : ℕ × ℕ) : (sampleBlock f xMin xMax yMin yMax res p).length = 3 := by
  unfold sampleBlock
  simp only []
  split <;> rfl

theorem quadIndices_length (res i j : ℕ) : (quadIndices res i j).length = 6 := rfl

/-- **C1.** For every call to `generate3DData`, with `n` the effective
(clamped) resolution, the returned `vertices` array has exactly
`3 * (n+1)^2` scalars and the returned `indices` array has exactly
`6 * n^2` entries. -/
theorem generate3DData_sizes (f : ℚ → ℚ → Option ℚ) (dx0 dx1 dy0 dy1 : ℚ)
    (resolution : ℤ) :
    (generate3DData f dx0 dx1 dy0 dy1 resolution).vertices.length =
      3 * (effRes resolution + 1) ^ 2 ∧
    (generate3DData f dx0 dx1 dy0 dy1 resolution).indices.length =
      6 * effRes resolution ^ 2 := by
  constructor
  · show (runGrid f _ _ _ _ (effRes resolution)).vertices.length = _
    rw [runGrid_eq]
    show ((gridPairs (effRes resolution)).flatMap _).length = _
    rw [length_flatMap_const _ _ 3 (fun p _ => sampleBlock_length _ _ _ _ _ _ p)]
    rw [gridPairs_length]
    ring
  · show (meshIndices (effRes resolution)).length = _
    unfold meshIndices
    rw [length_flatMap_const _ _ (6 * effRes resolution) (fun i _ => by
      rw [length_flatMap_const _ _ 6 (fun j _ => quadIndices_length _ _ j)]
      simp)]
    simp
    ring

/-! ## C5: z-bounds are the min/max over exactly the valid samples -/

/-- Spec-side minimum of a list of z-values (`none` when there is none,
matching the untouched `Infinity` initial value in the code). -/
def specMinimum : List ℚ → Option ℚ
  | [] => none
  | z :: zs => some (zs.foldl min z)

/-- Spec-side maximum of a list of z-values. -/
def specMaximum : List ℚ → Option ℚ
  | [] => none
  | z :: zs => some (zs.foldl max z)

theorem minFold_some (zs : List ℚ) : ∀ m : ℚ, minFold (some m) zs = some (zs.foldl min m) := by
  induction zs with
  | nil => intro m; rfl
  | cons z zs ih => intro m; simpa [minFold, List.foldl_cons] using ih (min m z)

theorem maxFold_some (zs : List ℚ) : ∀ m : ℚ, maxFold (some m) zs = some (zs.foldl max m) := by
  induction zs with
  | nil => intro m; rfl
  | cons z zs ih => intro m; simpa [maxFold, List.foldl_cons] using ih (max m z)

theorem minFold_none (zs : List ℚ) : minFold none zs = specMinimum zs := by
  cases zs with
  | nil => rfl
  | cons z zs => simpa [minFold, specMinimum, List.foldl_cons] using minFold_some zs z

theorem maxFold_none (zs : List ℚ) : maxFold none zs = specMaximum zs := by
  cases zs with
  | nil => rfl
  | cons z zs => simpa [maxFold, specMaximum, List.foldl_cons] using maxFold_some zs z

theorem foldl_min_mem (zs : List ℚ) : ∀ z : ℚ, zs.foldl min z ∈ z :: zs := by
  induction zs with
  | nil => intro z; simp
  | cons a zs ih =>
    intro z
    rw [List.foldl_cons]
    simp only [List.mem_cons]
    rcases List.mem_cons.mp (ih (min z a)) with h | h
    · rcases min_choice z a with hm | hm
      · exact Or.inl (by rw [h, hm])
      · exact Or.inr (Or.inl (by rw [h, hm]))
    · exact Or.inr (Or.inr h)

theorem foldl_min_le_init (zs : List ℚ) : ∀ z : ℚ, zs.foldl min z ≤ z := by
  induction zs with
  | nil => intro z; exact le_refl z
  | cons a zs ih =>
    intro z
    rw [List.foldl_cons]
    exact le_trans (ih (min z a)) (min_le_left _ _)

theorem foldl_min_le_mem (zs : List ℚ) : ∀ z w : ℚ, w ∈ zs → zs.foldl min z ≤ w := by
  induction zs with
  | nil => intro z w hw; exact absurd hw (List.not_mem_nil w)
  | cons a zs ih =>
    intro z w hw
    rw [List.foldl_cons]
    rcases List.mem_cons.mp hw with h | h
    · rw [h]
      exact le_trans (foldl_min_le_init zs (min z a)) (min_le_right _ _)
    · exact ih (min z a) w h

theorem foldl_max_mem (zs : List ℚ) : ∀ z : ℚ, zs.foldl max z ∈ z :: zs := by
  induction zs with
  | nil => intro z; simp
  | cons a zs ih =>
    intro z
    rw [List.foldl_cons]
    simp only [List.mem_cons]
    rcases List.mem_cons.mp (ih (max z a)) with h | h
    · rcases max_choice z a with hm | hm
      · exact Or.inl (by rw [h, hm])
      · exact Or.inr (Or.inl (by rw [h, hm]))
    · exact Or.inr (Or.inr h)

theorem foldl_max_le_init (zs : List ℚ) : ∀ z : ℚ, z ≤ zs.foldl max z := by
  induction zs with
  | nil => intro z; exact le_refl z
  | cons a zs ih =>
    intro z
    rw [List.foldl_cons]
    exact le_trans (le_max_left _ _) (ih (max z a))

theorem foldl_max_le_mem (zs : List ℚ) : ∀ z w : ℚ, w ∈ zs → w ≤ zs.foldl max z := by
  induction zs with
  | nil => intro z w hw; exact absurd hw (List.not_mem_nil w)
  | cons a zs ih =>
    intro z w hw
    rw [List.foldl_cons]
    rcases List.mem_cons.mp hw with h | h
    · rw [h]
      exact le_trans (le_max_right z a) (foldl_max_le_init zs (max z a))
    · exact ih (max z a) w h

/-- **C5.** `bounds.z` returned by `generate3DData` is `[minZ, maxZ]`
computed over exactly the z-values of the valid (finite-evaluating)
samples; the `z = 0` placeholders of invalid samples are never consulted.
The returned minimum is an attained lower bound of the valid z-values and
the returned maximum an attained upper bound. -/
theorem generate3DData_zbounds (f : ℚ → ℚ → Option ℚ) (dx0 dx1 dy0 dy1 : ℚ)
    (resolution : ℤ) :
    (generate3DData f dx0 dx1 dy0 dy1 resolution).boundsZ =
      (specMinimum (validZs f (jsOrQ dx0 (-5)) (jsOrQ dx1 5) (jsOrQ dy0 (-5))
          (jsOrQ dy1 5) (effRes resolution) (gridPairs (effRes resolution))),
       specMaximum (validZs f (jsOrQ dx0 (-5)) (jsOrQ dx1 5) (jsOrQ dy0 (-5))
          (jsOrQ dy1 5) (effRes resolution) (gridPairs (effRes resolution)))) ∧
    (∀ zs : List ℚ, ∀ m, specMinimum zs = some m → m ∈ zs ∧ ∀ z ∈ zs, m ≤ z) ∧
    (∀ zs : List ℚ, ∀ m, specMaximum zs = some m → m ∈ zs ∧ ∀ z ∈ zs, z ≤ m) := by
  refine ⟨?_, ?_, ?_⟩
  · show ((runGrid f _ _ _ _ _).minZ, (runGrid f _ _ _ _ _).maxZ) = _
    rw [runGrid_eq]
    simp only []
    rw [minFold_none, maxFold_none]
  · intro zs m hm
    cases zs with
    | nil => simp [specMinimum] at hm
    | cons z zs =>
      simp only [specMinimum, Option.some.injEq] at hm
      subst hm
      refine ⟨foldl_min_mem zs z, fun w hw => ?_⟩
      rcases List.mem_cons.mp hw with h | h
      · exact h ▸ foldl_min_le_init zs z
      · exact foldl_min_le_mem zs z w h
  · intro zs m hm
    cases zs with
    | nil => simp [specMaximum] at hm
    | cons z zs =>
      simp only [specMaximum, Option.some.injEq] at hm
      subst hm
      refine ⟨foldl_max_mem zs z, fun w hw => ?_⟩
      rcases List.mem_cons.mp hw with h | h
      · exact h ▸ foldl_max_le_init zs z
      · exact foldl_max_le_mem zs z w h

/-! ## C2: exact index sequence -/

/-- Spec-side restatement of the index sequence from the claim's words:
iterate `i` from `0` to `n-1` (outer) and `j` from `0` to `n-1` (inner) and
emit, for each `(i,j)`, the six indices `a, b, c, b, d, c` where
`a = i*(n+1)+j`, `b = a+1`, `c = a+n+1`, `d = c+1`. -/
def claimedIndexSequence (n : ℕ) : List ℕ :=
  (List.range n).flatMap (fun i =>
    (List.range n).flatMap (fun j =>
      let a := i * (n + 1) + j
      let b := a + 1
      let c := a + n + 1
      let d := c + 1
      [a, b, c, b, d, c]))

/-- **C2.** For every call to `generate3DData` with effective resolution
`n`, the returned `indices` array is exactly the sequence produced by the
fixed two-triangles-per-quad winding `a, b, c, b, d, c` over
`i ∈ [0,n)` (outer), `j ∈ [0,n)` (inner). -/
theorem generate3DData_indices_winding (f : ℚ → ℚ → Option ℚ)
    (dx0 dx1 dy0 dy1 : ℚ) (resolution : ℤ) :
    (generate3DData f dx0 dx1 dy0 dy1 resolution).indices =
      claimedIndexSequence (effRes resolution) := rfl

/-! ## C3: all indices in range -/

theorem quadIndices_lt (res i j k : ℕ) (hi : i < res) (hj : j < res)
    (hk : k ∈ quadIndices res i j) : k < (res + 1) ^ 2 := by
  have hstep : (i + 1) * (res + 1) ≤ res * (res + 1) :=
    Nat.mul_le_mul_right _ hi
  have hsq : (res + 1) ^ 2 = res * (res + 1) + (res + 1) := by ring
  have hexp : (i + 1) * (res + 1) = i * (res + 1) + (res + 1) := by ring
  simp only [quadIndices, List.mem_append, List.mem_cons, List.not_mem_nil,
    or_false] at hk
  rcases hk with h | h | h | h | h | h <;> omega

/-- **C3.** Every element of the `indices` array returned by
`generate3DData` is `< (n+1)^2`, the number of vertices (ℕ-valued indices
are nonnegative by construction), so no triangle references a vertex
outside the vertex array. -/
theorem generate3DData_indices_in_range (f : ℚ → ℚ → Option ℚ)
    (dx0 dx1 dy0 dy1 : ℚ) (resolution : ℤ) (k : ℕ)
    (hk : k ∈ (generate3DData f dx0 dx1 dy0 dy1 resolution).indices) :
    k < (effRes resolution + 1) ^ 2 := by
  have hk' : k ∈ meshIndices (effRes resolution) := hk
  unfold meshIndices at hk'
  rw [List.mem_flatMap] at hk'
  obtain ⟨i, hi, hk'⟩ := hk'
  rw [List.mem_flatMap] at hk'
  obtain ⟨j, hj, hk'⟩ := hk'
  exact quadIndices_lt _ i j k (List.mem_range.mp hi) (List.mem_range.mp hj) hk'

/-- Concrete witness for C3: index entry `14` occurs in the mesh for
resolution `10` and is below `(10+1)^2 = 121`. -/
theorem generate3DData_indices_in_range_witness :
    14 ∈ (generate3DData (fun _ _ => some 0) 1 2 3 4 10).indices ∧ 14 < 121 := by
  refine ⟨by decide, ?_⟩
  have h := generate3DData_indices_in_range (fun _ _ => some 0) 1 2 3 4 10 14
    (by decide)
  exact lt_of_lt_of_eq h (by decide)

/-! ## C4: row-major inclusive sampling grid -/

/-- The `vertices` array is the flat concatenation of the per-sample
blocks, in loop order. -/
theorem generate3DData_vertices (f : ℚ → ℚ → Option ℚ) (dx0 dx1 dy0 dy1 : ℚ)
    (resolution : ℤ) :
    (generate3DData f dx0 dx1 dy0 dy1 resolution).vertices =
      (gridPairs (effRes resolution)).flatMap
        (sampleBlock f (jsOrQ dx0 (-5)) (jsOrQ dx1 5) (jsOrQ dy0 (-5))
          (jsOrQ dy1 5) (effRes resolution)) := by
  show (runGrid f _ _ _ _ _).vertices = _
  rw [runGrid_eq]

theorem flatMap_drop_mul {α β : Type} (g : α → List β) (m : ℕ)
    (h : ∀ a, (g a).length = m) :
    ∀ (l : List α) (t : ℕ), (l.flatMap g).drop (m * t) = (l.drop t).flatMap g := by
  intro l
  induction l with
  | nil => intro t; simp
  | cons a l ih =>
    intro t
    cases t with
    | zero => simp
    | succ t =>
      rw [List.flatMap_cons, List.drop_succ_cons]
      have hm : m * (t + 1) = (g a).length + m * t := by rw [h a]; ring
      rw [hm, List.drop_append, ih t]

theorem range_drop_cons (n i : ℕ) (h : i < n) :
    (List.range n).drop i = i :: (List.range n).drop (i + 1) := by
  rw [List.drop_eq_getElem_cons (by simpa using h)]
  simp

/-- After dropping `i*(n+1)+j` loop pairs, the next visited pair is `(i, j)`. -/
theorem gridPairs_block (n i j : ℕ) (hi : i ≤ n) (hj : j ≤ n) :
    ∃ rest, (gridPairs n).drop (i * (n + 1) + j) = (i, j) :: rest := by
  have hcomm : i * (n + 1) + j = (n + 1) * i + j := by ring
  rw [hcomm, ← List.drop_drop]
  unfold gridPairs
  rw [flatMap_drop_mul _ (n + 1) (fun a => by simp) _ i]
  rw [range_drop_cons (n + 1) i (by omega), List.flatMap_cons]
  rw [List.drop_append_of_le_length (by simpa using by omega)]
  rw [← List.map_drop, range_drop_cons (n + 1) j (by omega), List.map_cons]
  exact ⟨_, rfl⟩

/-- The three scalars at offset `3*(i*(n+1)+j)` of the `vertices` array
are exactly the block pushed for the sample `(i, j)`. -/
theorem generate3DData_block_at (f : ℚ → ℚ → Option ℚ) (dx0 dx1 dy0 dy1 : ℚ)
    (resolution : ℤ) (i j : ℕ) (hi : i ≤ effRes resolution)
    (hj : j ≤ effRes resolution) :
    ((generate3DData f dx0 dx1 dy0 dy1 resolution).vertices.drop
        (3 * (i * (effRes resolution + 1) + j))).take 3 =
      sampleBlock f (jsOrQ dx0 (-5)) (jsOrQ dx1 5) (jsOrQ dy0 (-5)) (jsOrQ dy1 5)
        (effRes resolution) (i, j) := by
  rw [generate3DData_vertices]
  rw [flatMap_drop_mul _ 3 (fun p => sampleBlock_length _ _ _ _ _ _ p)]
  obtain ⟨rest, hrest⟩ := gridPairs_block (effRes resolution) i j hi hj
  rw [hrest, List.flatMap_cons]
  exact List.take_left' (sampleBlock_length _ _ _ _ _ _ _)

/-- Spec-side restatement of the claimed vertex layout: row-major order
(`i` outer, `j` inner, `i, j ∈ [0, n]`) with coordinates
`x = xMin + (xMax-xMin)*i/n` and `y = yMin + (yMax-yMin)*j/n`, the z-value
being the sample value (or the `0` placeholder when invalid). -/
def rowMajorVertices (f : ℚ → ℚ → Option ℚ) (xMin xMax yMin yMax : ℚ)
    (n : ℕ) : List ℚ :=
  (List.range (n + 1)).flatMap (fun i =>
    (List.range (n + 1)).flatMap (fun j =>
      let x := xMin + (xMax - xMin) * ((i : ℚ) / (n : ℚ))
      let y := yMin + (yMax - yMin) * ((j : ℚ) / (n : ℚ))
      [x, y, match f x y with | some z => z | none => 0]))

/-- The concrete equation `x^2 + y^2`: its evaluation under
`evaluate3DFunction` succeeds with a finite value at every sample point. -/
def fSquares : ℚ → ℚ → Option ℚ := fun x y => some (x ^ 2 + y ^ 2)

set_option maxRecDepth 100000 in
/-- **C4.** The sample points of `generate3DData` are laid out in
row-major order (`i` outer, `j` inner) with the inclusive-boundary
interpolation formula; in particular, for domain `{x:[-1,1], y:[-1,1]}`,
resolution 10 and equation `x^2+y^2`, the vertex at `(i=0,j=0)` is
`(-1,-1,2)` and the vertex at `(i=5,j=5)` is `(0,0,0)`, i.e.
`(x, y, x^2+y^2)` for the interpolated `x = y = 0`. -/
theorem generate3DData_row_major (f : ℚ → ℚ → Option ℚ) (dx0 dx1 dy0 dy1 : ℚ)
    (resolution : ℤ) :
    (generate3DData f dx0 dx1 dy0 dy1 resolution).vertices =
      rowMajorVertices f (jsOrQ dx0 (-5)) (jsOrQ dx1 5) (jsOrQ dy0 (-5))
        (jsOrQ dy1 5) (effRes resolution) ∧
    ((generate3DData fSquares (-1) 1 (-1) 1 10).vertices.take 3 = [-1, -1, 2] ∧
     ((generate3DData fSquares (-1) 1 (-1) 1 10).vertices.drop (3 * (5 * 11 + 5))).take 3 =
       [0, 0, 0]) := by
  constructor
  · rw [generate3DData_vertices]
    unfold rowMajorVertices gridPairs
    rw [List.flatMap_assoc]
    refine congrArg (List.flatMap (List.range (effRes resolution + 1))) (funext fun i => ?_)
    rw [List.flatMap_map]
    refine congrArg (List.flatMap (List.range (effRes resolution + 1))) (funext fun j => ?_)
    show sampleBlock f _ _ _ _ _ (i, j) = _
    unfold sampleBlock sampleX sampleY
    simp only []
    cases f (jsOrQ dx0 (-5) + (jsOrQ dx1 5 - jsOrQ dx0 (-5)) * ((i : ℚ) / (effRes resolution : ℚ)))
        (jsOrQ dy0 (-5) + (jsOrQ dy1 5 - jsOrQ dy0 (-5)) * ((j : ℚ) / (effRes resolution : ℚ))) <;>
      rfl
  · have hres : effRes 10 = 10 := rfl
    constructor
    · have h := generate3DData_block_at fSquares (-1) 1 (-1) 1 10 0 0
        (by rw [hres]; omega) (by rw [hres]; omega)
      rw [hres] at h
      norm_num at h
      rw [h]
      unfold sampleBlock sampleX sampleY fSquares jsOrQ
      norm_num
    · have h := generate3DData_block_at fSquares (-1) 1 (-1) 1 10 5 5
        (by rw [hres]; omega) (by rw [hres]; omega)
      rw [hres] at h
      norm_num at h
      rw [show (3 : ℕ) * (5 * 11 + 5) = 180 by norm_num]
      rw [h]
      unfold sampleBlock sampleX sampleY fSquares jsOrQ
      norm_num

/-! ## C6: invalid samples become placeholders, loop does not abort -/

/-- The `(x, y, z)` block pushed by the frontend `useFunction3D` hook
(Plot3D.js lines 26–56): same interpolation, but the invalid-sample
placeholder is the small epsilon `0.001` "to avoid flat surfaces". -/
def frontBlock (f : ℚ → ℚ → Option ℚ) (xMin xMax yMin yMax : ℚ) (res : ℕ)
    (p : ℕ × ℕ) : List ℚ :=
  let x := xMin + (xMax - xMin) * ((p.1 : ℚ) / (res : ℚ))
  let y := yMin + (yMax - yMin) * ((p.2 : ℚ) / (res : ℚ))
  match f x y with
  | some z => [x, y, z]
  | none => [x, y, 1 / 1000]

/-- The frontend hook `useFunction3D` (Plot3D.js lines 18–77): the same
nested `i`/`j` loops (flattened over `gridPairs`) build the vertices, and
the identical second pass builds the indices.  `f` is the observable
behaviour of the per-sample `try { ...; evaluate(expr) }`: `none` when the
evaluation throws or yields a non-number/non-finite value.  The outer
try/catch (returning empty arrays) is unreachable here since the domain
is passed destructured. -/
def useFunction3D (f : ℚ → ℚ → Option ℚ) (xMin xMax yMin yMax : ℚ)
    (resolution : ℕ) : List ℚ × List ℕ :=
  ((gridPairs resolution).flatMap (frontBlock f xMin xMax yMin yMax resolution),
   meshIndices resolution)

theorem frontBlock_length (f : ℚ → ℚ → Option ℚ) (xMin xMax yMin yMax : ℚ)
    (res : ℕ) (p : ℕ × ℕ) : (frontBlock f xMin xMax yMin yMax res p).length = 3 := by
  unfold frontBlock
  simp only []
  split <;> rfl

theorem useFunction3D_block_at (f : ℚ → ℚ → Option ℚ) (xMin xMax yMin yMax : ℚ)
    (n i j : ℕ) (hi : i ≤ n) (hj : j ≤ n) :
    (((useFunction3D f xMin xMax yMin yMax n).1.drop (3 * (i * (n + 1) + j))).take 3) =
      frontBlock f xMin xMax yMin yMax n (i, j) := by
  show (((gridPairs n).flatMap _).drop _).take 3 = _
  rw [flatMap_drop_mul _ 3 (fun p => frontBlock_length _ _ _ _ _ _ p)]
  obtain ⟨rest, hrest⟩ := gridPairs_block n i j hi hj
  rw [hrest, List.flatMap_cons]
  exact List.take_left' (frontBlock_length _ _ _ _ _ _ _)

/-- **C6.** A sample whose evaluation throws or is non-finite (e.g. the
equation `x+y+z` with no `z` parameter, which throws at every point)
produces the placeholder vertex `(x, y, 0)` in the backend — `(x, y,
0.001)` in the frontend variant — the sampling loop is not aborted
(it still visits all `(n+1)^2` samples), the sample is counted invalid,
and `validPoints + invalidPoints = (n+1)^2 = totalPoints`. -/
theorem generate3DData_invalid_sample (f : ℚ → ℚ → Option ℚ)
    (dx0 dx1 dy0 dy1 : ℚ) (resolution : ℤ) (i j : ℕ)
    (hi : i ≤ effRes resolution) (hj : j ≤ effRes resolution)
    (hf : f (sampleX (jsOrQ dx0 (-5)) (jsOrQ dx1 5) (effRes resolution) i)
            (sampleY (jsOrQ dy0 (-5)) (jsOrQ dy1 5) (effRes resolution) j) = none) :
    ((generate3DData f dx0 dx1 dy0 dy1 resolution).vertices.drop
        (3 * (i * (effRes resolution + 1) + j))).take 3 =
      [sampleX (jsOrQ dx0 (-5)) (jsOrQ dx1 5) (effRes resolution) i,
       sampleY (jsOrQ dy0 (-5)) (jsOrQ dy1 5) (effRes resolution) j, 0] ∧
    (generate3DData f dx0 dx1 dy0 dy1 resolution).statistics.validPoints +
      (generate3DData f dx0 dx1 dy0 dy1 resolution).statistics.invalidPoints =
      (generate3DData f dx0 dx1 dy0 dy1 resolution).statistics.totalPoints ∧
    (generate3DData f dx0 dx1 dy0 dy1 resolution).statistics.totalPoints =
      (effRes resolution + 1) ^ 2 ∧
    (((useFunction3D f (jsOrQ dx0 (-5)) (jsOrQ dx1 5) (jsOrQ dy0 (-5)) (jsOrQ dy1 5)
        (effRes resolution)).1.drop (3 * (i * (effRes resolution + 1) + j))).take 3) =
      [sampleX (jsOrQ dx0 (-5)) (jsOrQ dx1 5) (effRes resolution) i,
       sampleY (jsOrQ dy0 (-5)) (jsOrQ dy1 5) (effRes resolution) j, 1 / 1000] := by
  have hf' : f (jsOrQ dx0 (-5) + (jsOrQ dx1 5 - jsOrQ dx0 (-5)) * ((i : ℚ) / (effRes resolution : ℚ)))
      (jsOrQ dy0 (-5) + (jsOrQ dy1 5 - jsOrQ dy0 (-5)) * ((j : ℚ) / (effRes resolution : ℚ))) = none := hf
  refine ⟨?_, ?_, ?_, ?_⟩
  · rw [generate3DData_block_at f dx0 dx1 dy0 dy1 resolution i j hi hj]
    unfold sampleBlock
    simp only []
    rw [hf]
  · show (runGrid f _ _ _ _ _).validCount +
      ((effRes resolution + 1) * (effRes resolution + 1) - (runGrid f _ _ _ _ _).validCount) =
      (effRes resolution + 1) * (effRes resolution + 1)
    rw [runGrid_eq]
    simp only []
    have hle : (validZs f (jsOrQ dx0 (-5)) (jsOrQ dx1 5) (jsOrQ dy0 (-5)) (jsOrQ dy1 5)
        (effRes resolution) (gridPairs (effRes resolution))).length ≤
        (effRes resolution + 1) * (effRes resolution + 1) := by
      calc _ ≤ (gridPairs (effRes resolution)).length :=
            List.length_filterMap_le _ _
        _ = _ := gridPairs_length _
    omega
  · show (effRes resolution + 1) * (effRes resolution + 1) = (effRes resolution + 1) ^ 2
    ring
  · rw [useFunction3D_block_at f _ _ _ _ (effRes resolution) i j hi hj]
    unfold frontBlock
    simp only []
    rw [hf']
    rfl

/-- Concrete witness for C6: the equation `x+y+z` (no `z` parameter)
throws at every sample; at resolution 10 and domain `{x:[1,1],y:[1,1]}`
the placeholder behaviour and the counting identity hold at `(i,j)=(0,0)`. -/
theorem generate3DData_invalid_sample_witness :
    (0 ≤ effRes 10 ∧
      (fun (_ _ : ℚ) => (none : Option ℚ))
        (sampleX (jsOrQ 1 (-5)) (jsOrQ 1 5) (effRes 10) 0)
        (sampleY (jsOrQ 1 (-5)) (jsOrQ 1 5) (effRes 10) 0) = none) ∧
    (generate3DData (fun _ _ => none) 1 1 1 1 10).statistics.validPoints +
      (generate3DData (fun _ _ => none) 1 1 1 1 10).statistics.invalidPoints =
      (generate3DData (fun _ _ => none) 1 1 1 1 10).statistics.totalPoints :=
  ⟨⟨Nat.zero_le _, rfl⟩,
   (generate3DData_invalid_sample (fun _ _ => none) 1 1 1 1 10 0 0
      (Nat.zero_le _) (Nat.zero_le _) rfl).2.1⟩

/-! ## C7: resolution clamping (corrected: `0` is falsy and defaults to 50) -/

/-- **C7, counterexample.** The claim "every resolution below 10 is raised
to 10" fails at the requested resolution `0`: `0 < 10`, but
`resolution || 50` replaces the falsy `0` by the default `50` before
clamping, so the effective resolution is `50`, not `10`. -/
theorem effRes_zero_counterexample :
    (0 : ℤ) < 10 ∧
    (generate3DData (fun _ _ => some 0) 1 2 3 4 0).statistics.resolution = 50 ∧
    (generate3DData (fun _ _ => some 0) 1 2 3 4 0).statistics.resolution ≠ 10 := by
  refine ⟨by norm_num, rfl, by decide⟩

/-- **C7, amended.** `generate3DData` first replaces a falsy (zero)
requested resolution by the default `50`, then clamps to `[10,100]`:
every nonzero resolution below 10 is raised to 10, every resolution above
100 is capped to 100, resolution 5 yields 10, resolution 500 yields 100,
and resolution 0 yields 50. -/
theorem effRes_clamp (r : ℤ) :
    (r ≠ 0 → r < 10 → (generate3DData (fun _ _ => some 0) 1 2 3 4 r).statistics.resolution = 10) ∧
    (100 < r → (generate3DData (fun _ _ => some 0) 1 2 3 4 r).statistics.resolution = 100) ∧
    (generate3DData (fun _ _ => some 0) 1 2 3 4 5).statistics.resolution = 10 ∧
    (generate3DData (fun _ _ => some 0) 1 2 3 4 500).statistics.resolution = 100 ∧
    (generate3DData (fun _ _ => some 0) 1 2 3 4 0).statistics.resolution = 50 := by
  refine ⟨?_, ?_, rfl, rfl, rfl⟩
  · intro h0 h10
    show effRes r = 10
    unfold effRes jsOrZ
    rw [if_neg h0]
    omega
  · intro h100
    show effRes r = 100
    unfold effRes jsOrZ
    rw [if_neg (by omega)]
    omega

/-- Concrete witness for C7 (amended): resolution `7` is nonzero and below
10 and is raised to 10; resolution `101` is capped to 100. -/
theorem effRes_clamp_witness :
    (7 : ℤ) ≠ 0 ∧ (7 : ℤ) < 10 ∧
    (generate3DData (fun _ _ => some 0) 1 2 3 4 7).statistics.resolution = 10 ∧
    (100 : ℤ) < 101 ∧
    (generate3DData (fun _ _ => some 0) 1 2 3 4 101).statistics.resolution = 100 := by
  refine ⟨by norm_num, by norm_num, ?_, by norm_num, ?_⟩
  · exact (effRes_clamp 7).1 (by norm_num) (by norm_num)
  · exact (effRes_clamp 101).2.1 (by norm_num)

/-! ## C10: falsy domain bounds are replaced by defaults -/

/-- **C10.** A supplied domain bound equal to `0` is silently replaced by
its built-in default (`-5` for a minimum, `5` for a maximum):
`{x:[0,5]}`-style calls are sampled over the default interval (the whole
result coincides with the call on the default bound), the zero-width
domain `x:[0,0]` becomes `x ∈ [-5,5]`, and every nonzero bound keeps its
supplied value. -/
theorem generate3DData_zero_bound_defaults (f : ℚ → ℚ → Option ℚ)
    (dx0 dx1 dy0 dy1 : ℚ) (resolution : ℤ) :
    generate3DData f 0 dx1 dy0 dy1 resolution =
      generate3DData f (-5) dx1 dy0 dy1 resolution ∧
    generate3DData f 0 0 dy0 dy1 resolution =
      generate3DData f (-5) 5 dy0 dy1 resolution ∧
    (generate3DData f dx0 dx1 dy0 dy1 resolution).boundsX =
      (jsOrQ dx0 (-5), jsOrQ dx1 5) ∧
    (generate3DData f dx0 dx1 dy0 dy1 resolution).boundsY =
      (jsOrQ dy0 (-5), jsOrQ dy1 5) ∧
    (dx0 ≠ 0 → (generate3DData f dx0 dx1 dy0 dy1 resolution).boundsX.1 = dx0) ∧
    (dx1 ≠ 0 → (generate3DData f dx0 dx1 dy0 dy1 resolution).boundsX.2 = dx1) ∧
    (dy0 ≠ 0 → (generate3DData f dx0 dx1 dy0 dy1 resolution).boundsY.1 = dy0) ∧
    (dy1 ≠ 0 → (generate3DData f dx0 dx1 dy0 dy1 resolution).boundsY.2 = dy1) := by
  refine ⟨?_, ?_, rfl, rfl, ?_, ?_, ?_, ?_⟩
  · unfold generate3DData
    norm_num [jsOrQ]
  · unfold generate3DData
    norm_num [jsOrQ]
  · intro h; exact if_neg h
  · intro h; exact if_neg h
  · intro h; exact if_neg h
  · intro h; exact if_neg h

/-- Concrete witness for C10: with domain `{x:[0,1], y:[2,3]}`, the call
equals the call on `{x:[-5,1], y:[2,3]}` and the nonzero bounds survive. -/
theorem generate3DData_zero_bound_defaults_witness :
    generate3DData (fun _ _ => some 0) 0 1 2 3 10 =
      generate3DData (fun _ _ => some 0) (-5) 1 2 3 10 ∧
    (generate3DData (fun _ _ => some 0) 0 1 2 3 10).boundsX.2 = 1 := by
  have h := generate3DData_zero_bound_defaults (fun _ _ => some 0) 0 1 2 3 10
  exact ⟨h.1, h.2.2.2.2.2.1 (by norm_num)⟩

end Plot3D

namespace MathSolver

/-!
Embedding of `backend/utils/mathSolver.js` (the module actually exported,
i.e. the later declarations in the file: `solveMathExpression` at lines
169–181, the trigger tests at 183–186, `getExpressionType` at 528–535 and
their helpers).  JavaScript strings are modelled by `String`/`List Char`;
the regular expressions of the source are implemented character by
character with JavaScript semantics (word boundaries `\b`, whitespace
class `\s`, word class `\w`, case-insensitive flag `i`, lazy `(.+?)` and
greedy quantifiers with their backtracking order).
-/

/-- JavaScript's `\s` class (the whitespace characters recognised by
regular expressions and `String.prototype.trim`). -/
def isJsWs (c : Char) : Bool :=
  c == ' ' || c == '\t' || c == '\n' || c == '\r' || c == '\x0b' || c == '\x0c' ||
  c == '\u00a0' || c == '\u1680' || ('\u2000' ≤ c && c ≤ '\u200a') ||
  c == '\u2028' || c == '\u2029' || c == '\u202f' || c == '\u205f' ||
  c == '\u3000' || c == '\ufeff'

/-- JavaScript's `\w` class: `[A-Za-z0-9_]`. -/
def isWordChar (c : Char) : Bool := c.isAlpha || c.isDigit || c == '_'

/-- Is there a `\b` word boundary between the previous character (`none`
at the start of the string) and the character `c`? -/
def boundaryBefore (prev : Option Char) (c : Char) : Bool :=
  match prev with
  | none => isWordChar c
  | some p => isWordChar p != isWordChar c

/-- Is there a `\b` word boundary after `lastc`, `rest` being what follows? -/
def boundaryAfter (lastc : Char) (rest : List Char) : Bool :=
  match rest with
  | [] => isWordChar lastc
  | c :: _ => isWordChar lastc != isWordChar c

/-- Does `\bw\b` match at exactly this position (`prev` = preceding
character)?  `w` is a literal alternative of the source regex. -/
def wordAttempt (w : List Char) (prev : Option Char) (s : List Char) : Bool :=
  match w with
  | [] => false
  | c :: _ =>
    w.isPrefixOf s && boundaryBefore prev c &&
    (match w.getLast? with
     | some lc => boundaryAfter lc (s.drop w.length)
     | none => false)

/-- Scan all start positions from the left, as a regex search does. -/
def scanBool (att : Option Char → List Char → Bool) (prev : Option Char)
    (s : List Char) : Bool :=
  att prev s ||
    (match s with
     | [] => false
     | c :: rest => scanBool att (some c) rest)

/-- `\bw\b` matches somewhere in `s`, case-insensitively (`w` lowercase). -/
def hasWordCI (w : String) (s : String) : Bool :=
  scanBool (wordAttempt w.data) none (s.data.map Char.toLower)

/-- Greedy `\s*`: drop the maximal run of JS whitespace. -/
def dropWs (s : List Char) : List Char :=
  match s with
  | c :: rest => if isJsWs c then dropWs rest else c :: rest
  | [] => []

/-- `isDerivativeOperation`: `/\b(derivative|diff|d\/d|differentiate)\b/i`. -/
def isDerivativeOperation (s : String) : Bool :=
  hasWordCI "derivative" s || hasWordCI "diff" s || hasWordCI "d/d" s ||
    hasWordCI "differentiate" s

/-- `isIntegralOperation`: `/\b(integral|integrate|∫)\b/i`. -/
def isIntegralOperation (s : String) : Bool :=
  hasWordCI "integral" s || hasWordCI "integrate" s || hasWordCI "∫" s

/-- One attempt of `/\b(solve)\s*\(/i` at a fixed position. -/
def solveParenAttempt (prev : Option Char) (s : List Char) : Bool :=
  "solve".data.isPrefixOf s && boundaryBefore prev 's' &&
    (match dropWs (s.drop 5) with
     | '(' :: _ => true
     | _ => false)

/-- `isSolveOperation`: `/\b(solve)\s*\(/i`. -/
def isSolveOperation (s : String) : Bool :=
  scanBool solveParenAttempt none (s.data.map Char.toLower)

/-- `isLimitOperation`: `/\b(limit|lim)\b/i`. -/
def isLimitOperation (s : String) : Bool :=
  hasWordCI "limit" s || hasWordCI "lim" s

/-- `getExpressionType` (mathSolver.js lines 528–535): lowercase the
input, then test the triggers in the fixed order derivative, integral,
solve, limit, defaulting to simplification. -/
def getExpressionType (expression : String) : String :=
  let clean := String.mk (expression.data.map Char.toLower)
  if isDerivativeOperation clean then "derivative"
  else if isIntegralOperation clean then "integral"
  else if isSolveOperation clean then "equation"
  else if isLimitOperation clean then "limit"
  else "simplification"

theorem toLower_idem (c : Char) : c.toLower.toLower = c.toLower := by
  by_cases h : c.toNat ≥ 65 ∧ c.toNat ≤ 90
  · have h1 : c.toLower = Char.ofNat (c.toNat + 32) := by
      unfold Char.toLower
      exact if_pos h
    rw [h1]
    obtain ⟨h65, h90⟩ := h
    set n := c.toNat with hn
    interval_cases n <;> decide
  · have h1 : c.toLower = c := by
      unfold Char.toLower
      exact if_neg h
    rw [h1, h1]

theorem map_toLower_idem (l : List Char) :
    (l.map Char.toLower).map Char.toLower = l.map Char.toLower := by
  rw [List.map_map]
  exact List.map_congr_left (fun c _ => toLower_idem c)

theorem hasWordCI_lower (w s : String) :
    hasWordCI w (String.mk (s.data.map Char.toLower)) = hasWordCI w s := by
  unfold hasWordCI
  show scanBool _ none ((s.data.map Char.toLower).map Char.toLower) = _
  rw [map_toLower_idem]

/-- **C8.** The classifier tests the operation triggers in the fixed
priority order derivative > integral > solve > limit > default-simplify:
an input matching both the derivative trigger and the solve trigger is
classified as the derivative operation. -/
theorem getExpressionType_priority (s : String)
    (hd : isDerivativeOperation s = true) (_hs : isSolveOperation s = true) :
    getExpressionType s = "derivative" := by
  unfold getExpressionType
  have hd' : isDerivativeOperation (String.mk (s.data.map Char.toLower)) = true := by
    unfold isDerivativeOperation at hd ⊢
    rw [hasWordCI_lower, hasWordCI_lower, hasWordCI_lower, hasWordCI_lower]
    exact hd
  simp only [hd', if_true]

/-- Concrete witness for C8: `solve(derivative(x^2, x), x)` matches both
the derivative and the solve triggers and is classified `derivative`. -/
theorem getExpressionType_priority_witness :
    isDerivativeOperation "solve(derivative(x^2, x), x)" = true ∧
    isSolveOperation "solve(derivative(x^2, x), x)" = true ∧
    getExpressionType "solve(derivative(x^2, x), x)" = "derivative" := by
  refine ⟨by decide, by decide, ?_⟩
  exact getExpressionType_priority "solve(derivative(x^2, x), x)" (by decide) (by decide)

/-! ## String and regex machinery for the operand parsers -/

/-- JS line terminators: the characters not matched by `.`. -/
def isLineTerm (c : Char) : Bool :=
  c == '\n' || c == '\r' || c == '\u2028' || c == '\u2029'

/-- `String.prototype.includes` (substring containment). -/
def containsSub : List Char → List Char → Bool
  | [], sub => sub.isEmpty
  | c :: rest, sub => sub.isPrefixOf (c :: rest) || containsSub rest sub

/-- `a.includes(b)` on strings. -/
def jsIncludes (s sub : String) : Bool := containsSub s.data sub.data

/-- `String.prototype.trim`: strip JS whitespace from both ends. -/
def jsTrim (s : String) : String :=
  String.mk (dropWs (dropWs s.data.reverse).reverse)

/-- Case-insensitive literal match (`i` flag): `lit` is given lowercase;
on success return the rest of the input. -/
def ciPrefixDrop : List Char → List Char → Option (List Char)
  | [], s => some s
  | _ :: _, [] => none
  | c :: lit, d :: s => if d.toLower == c then ciPrefixDrop lit s else none

/-- Greedy `(\w+)`-style split: the maximal word-character run and the rest. -/
def takeWord : List Char → List Char × List Char
  | [] => ([], [])
  | c :: rest =>
    if isWordChar c then
      let (w, r) := takeWord rest
      (c :: w, r)
    else ([], c :: rest)

/-- Greedy `(\d+)`/`(\d*)` split: the maximal digit run and the rest. -/
def takeDigits : List Char → List Char × List Char
  | [] => ([], [])
  | c :: rest =>
    if c.isDigit then
      let (d, r) := takeDigits rest
      (c :: d, r)
    else ([], c :: rest)

/-- Greedy `([^,]+)`-style split at `,`. -/
def takeNonComma : List Char → List Char × List Char
  | [] => ([], [])
  | c :: rest =>
    if c == ',' then ([], c :: rest)
    else
      let (r, t) := takeNonComma rest
      (c :: r, t)

/-- Greedy `([^)]+)`-style split at `)`. -/
def takeNonParen : List Char → List Char × List Char
  | [] => ([], [])
  | c :: rest =>
    if c == ')' then ([], c :: rest)
    else
      let (r, t) := takeNonParen rest
      (c :: r, t)

/-- Greedy `(.+)`-style split: the maximal non-line-terminator run. -/
def takeDot : List Char → List Char × List Char
  | [] => ([], [])
  | c :: rest =>
    if isLineTerm c then ([], c :: rest)
    else
      let (r, t) := takeDot rest
      (c :: r, t)

/-- `parseInt` on a digit string. -/
def digitsToNat (ds : List Char) : ℕ :=
  ds.foldl (fun n c => 10 * n + (c.toNat - 48)) 0

/-- Length of the leading JS-whitespace run. -/
def countWs : List Char → ℕ
  | [] => 0
  | c :: rest => if isJsWs c then countWs rest + 1 else 0

/-- Backtracking of a greedy `\s*` standing before a lazy group: try the
maximal whitespace consumption first, then shorter ones. -/
def wsBackGo {α : Type} (body : List Char → Option α) (s : List Char) :
    ℕ → Option α
  | 0 => body s
  | k + 1 =>
    match body (s.drop (k + 1)) with
    | some a => some a
    | none => wsBackGo body s k

def wsBacktrack {α : Type} (body : List Char → Option α) (s : List Char) :
    Option α :=
  wsBackGo body s (countWs s)

/-- Lazy `(.+?)` followed by a tail matcher: grow the capture one
character at a time (shortest first), each character matched by `.`. -/
def lazyDot {α : Type} (tail : List Char → Option α) :
    List Char → List Char → Option (List Char × α)
  | _, [] => none
  | acc, c :: rest =>
    if isLineTerm c then none
    else
      match tail rest with
      | some a => some (acc ++ [c], a)
      | none => lazyDot tail (acc ++ [c]) rest

/-- Scan all start positions from the left (regex search semantics). -/
def scanFirst {α : Type} (att : List Char → Option α) : List Char → Option α
  | [] => att []
  | c :: rest =>
    match att (c :: rest) with
    | some a => some a
    | none => scanFirst att rest

set_option linter.unusedVariables false in
/-- `String.prototype.replace(new RegExp(pat, "g"), rep)` for a pattern
that is a literal word (the captured `\w+` variables used by the source
contain no regex metacharacters); an empty pattern is treated as plain
copy (the source never produces one). -/
def replaceAllSub (pat rep : List Char) (s : List Char) : List Char :=
  match s with
  | [] => []
  | c :: rest =>
    if h : pat ≠ [] ∧ pat.isPrefixOf (c :: rest) = true then
      rep ++ replaceAllSub pat rep ((c :: rest).drop pat.length)
    else
      c :: replaceAllSub pat rep rest
termination_by s.length
decreasing_by
  · have hl := List.length_pos.mpr h.1
    simp only [List.length_drop, List.length_cons]
    omega
  · simp

def jsReplaceAll (s pat rep : String) : String :=
  String.mk (replaceAllSub pat.data rep.data s.data)

/-! ## The operand parsers of mathSolver.js (lines 307–396) -/

/-- Tail `\s*,\s*(\w+)\s*\)` of the `LIT(expr, var)` call patterns;
returns the `(\w+)` capture. -/
def callTail (rest : List Char) : Option (List Char) :=
  match dropWs rest with
  | ',' :: r2 =>
    match takeWord (dropWs r2) with
    | ([], _) => none
    | (w, r4) =>
      match dropWs r4 with
      | ')' :: _ => some w
      | _ => none
  | _ => none

/-- One attempt of `LIT\s*\(\s*(.+?)\s*,\s*(\w+)\s*\)` (case-insensitive
in the literal) at a fixed position; returns the two captures. -/
def callArgsAt (lit : List Char) (s : List Char) : Option (List Char × List Char) :=
  match ciPrefixDrop lit s with
  | none => none
  | some r1 =>
    match dropWs r1 with
    | '(' :: r2 => wsBacktrack (fun s2 => lazyDot callTail [] s2) r2
    | _ => none

/-- Search `LIT\s*\(\s*(.+?)\s*,\s*(\w+)\s*\)/i` in the whole string. -/
def findCallArgs (lit : String) (s : String) : Option (String × String) :=
  match scanFirst (callArgsAt lit.data) s.data with
  | some (f, v) => some (String.mk f, String.mk v)
  | none => none

/-- Tail `\s*\)` of a lazy group. -/
def parenTail (rest : List Char) : Option Unit :=
  match dropWs rest with
  | ')' :: _ => some ()
  | _ => none

/-- One attempt of `/d\s*\/\s*d(\w+)\s*\(\s*(.+?)\s*\)/i` at a fixed
position; returns (`(\w+)` capture, `(.+?)` capture). -/
def dSlashDAt (s : List Char) : Option (List Char × List Char) :=
  match ciPrefixDrop ['d'] s with
  | none => none
  | some r1 =>
    match dropWs r1 with
    | '/' :: r2 =>
      match ciPrefixDrop ['d'] (dropWs r2) with
      | none => none
      | some r3 =>
        match takeWord r3 with
        | ([], _) => none
        | (w, r4) =>
          match dropWs r4 with
          | '(' :: r5 =>
            match wsBacktrack (fun s2 => lazyDot parenTail [] s2) r5 with
            | some (g, _) => some (w, g)
            | none => none
          | _ => none
    | _ => none

/-- Tail `\s*\)\s*\/\s*d(\w+)` of the fourth derivative pattern;
returns the `(\w+)` capture. -/
def dParenTail (rest : List Char) : Option (List Char) :=
  match dropWs rest with
  | ')' :: r2 =>
    match dropWs r2 with
    | '/' :: r3 =>
      match ciPrefixDrop ['d'] (dropWs r3) with
      | some r4 =>
        match takeWord r4 with
        | ([], _) => none
        | (w, _) => some w
      | none => none
    | _ => none
  | _ => none

/-- One attempt of `/d\s*\(\s*(.+?)\s*\)\s*\/\s*d(\w+)/i`; returns
(`(.+?)` capture, `(\w+)` capture). -/
def dParenAt (s : List Char) : Option (List Char × List Char) :=
  match ciPrefixDrop ['d'] s with
  | some r1 =>
    match dropWs r1 with
    | '(' :: r2 => wsBacktrack (fun s2 => lazyDot dParenTail [] s2) r2
    | _ => none
  | none => none

/-- `parseDerivativeInput` (lines 308–330).  The dispatch on
`pattern.toString()` in the source: the rendered source of pattern 3
(`/d\s*\/\s*d(\w+)...`) does not contain the plain substring `d/d` (the
slash is escaped), but does contain `d(`, so pattern 3 takes the
`{func: match[1], variable: match[2]}` branch, i.e. the `(\w+)` capture
becomes `func` and the `(.+?)` capture becomes `variable`.  Patterns 1, 2
and 4 also take that branch, where it assigns the captures as intended. -/
def parseDerivativeInput (equation : String) : Except String (String × String) :=
  match findCallArgs "derivative" equation with
  | some (f, v) => .ok (f, v)
  | none =>
  match findCallArgs "diff" equation with
  | some (f, v) => .ok (f, v)
  | none =>
  match scanFirst dSlashDAt equation.data with
  | some (w, g) => .ok (String.mk w, String.mk g)
  | none =>
  match scanFirst dParenAt equation.data with
  | some (f, v) => .ok (String.mk f, String.mk v)
  | none => .error "Invalid derivative syntax. Use: derivative(expression, variable)"

/-- Tail `\s*d(\w+)` of `/∫\s*(.+?)\s*d(\w+)/i`; returns the capture. -/
def intTail (rest : List Char) : Option (List Char) :=
  match ciPrefixDrop ['d'] (dropWs rest) with
  | some r2 =>
    match takeWord r2 with
    | ([], _) => none
    | (w, _) => some w
  | none => none

/-- One attempt of `/∫\s*(.+?)\s*d(\w+)/i` at a fixed position. -/
def intSignAt (s : List Char) : Option (List Char × List Char) :=
  match s with
  | '∫' :: r1 => wsBacktrack (fun s2 => lazyDot intTail [] s2) r1
  | _ => none

/-- `parseIntegralInput` (lines 332–347). -/
def parseIntegralInput (equation : String) : Except String (String × String) :=
  match findCallArgs "integral" equation with
  | some (f, v) => .ok (jsTrim f, jsTrim v)
  | none =>
  match findCallArgs "integrate" equation with
  | some (f, v) => .ok (jsTrim f, jsTrim v)
  | none =>
  match scanFirst intSignAt equation.data with
  | some (f, v) => .ok (jsTrim (String.mk f), jsTrim (String.mk v))
  | none => .error "Invalid integral syntax. Use: integral(expression, variable)"

/-- Tail `\s*=\s*(.+?)\s*,\s*(\w+)\s*\)` of the second solve pattern. -/
def solveEqTail (rest : List Char) : Option (List Char × List Char) :=
  match dropWs rest with
  | '=' :: r2 => wsBacktrack (fun s2 => lazyDot callTail [] s2) r2
  | _ => none

/-- One attempt of `/solve\s*\(\s*(.+?)\s*=\s*(.+?)\s*,\s*(\w+)\s*\)/i`. -/
def solveEqAt (s : List Char) : Option (List Char × List Char × List Char) :=
  match ciPrefixDrop "solve".data s with
  | some r1 =>
    match dropWs r1 with
    | '(' :: r2 =>
      match wsBacktrack (fun s2 => lazyDot solveEqTail [] s2) r2 with
      | some (l, (r, v)) => some (l, r, v)
      | none => none
    | _ => none
  | none => none

/-- `parseSolveInput` (lines 349–372).  The second pattern can only match
where the first already matched, but both are transcribed. -/
def parseSolveInput (equation : String) : Except String (String × String) :=
  match findCallArgs "solve" equation with
  | some (e, v) => .ok (jsTrim e, jsTrim v)
  | none =>
  match scanFirst solveEqAt equation.data with
  | some (l, r, v) =>
    let leftSide := jsTrim (String.mk l)
    let rightSide := jsTrim (String.mk r)
    let varName := jsTrim (String.mk v)
    if rightSide == "0" then .ok (leftSide, varName)
    else .ok (leftSide ++ " - (" ++ rightSide ++ ")", varName)
  | none =>
    .error "Invalid solve syntax. Use: solve(expression, variable) or solve(equation = value, variable)"

/-- Greedy `(.+)` followed by `\s*\)`: backtrack the capture from its
maximal extent until the remainder matches `\s*\)`. -/
def greedyDotWsParen (run rest : List Char) : ℕ → Option (List Char)
  | 0 => none
  | l + 1 =>
    match dropWs (run.drop (l + 1) ++ rest) with
    | ')' :: _ => some (run.take (l + 1))
    | _ => greedyDotWsParen run rest l

/-- `\s*(.+)\s*\)` at a fixed position. -/
def limitArg3Body (s3 : List Char) : Option (List Char) :=
  let (run, t) := takeDot s3
  greedyDotWsParen run t run.length

/-- `([^,]+)\s*,` at a fixed position: the greedy non-comma run must be
followed directly by the comma (returns capture and the rest after it). -/
def limitArg2Tail (s2 : List Char) : Option (List Char × List Char) :=
  match takeNonComma s2 with
  | ([], _) => none
  | (g2, t) =>
    match t with
    | ',' :: r5 => some (g2, r5)
    | _ => none

/-- One attempt of
`/limit\s*\(\s*(\w+)\s*,\s*([^,]+)\s*,\s*(.+)\s*\)/i`. -/
def limitCallAt (s : List Char) : Option (List Char × List Char × List Char) :=
  match ciPrefixDrop "limit".data s with
  | none => none
  | some r1 =>
    match dropWs r1 with
    | '(' :: r2 =>
      match takeWord (dropWs r2) with
      | ([], _) => none
      | (v, r3) =>
        match dropWs r3 with
        | ',' :: r4 =>
          match wsBacktrack limitArg2Tail r4 with
          | some (g2, r5) =>
            match wsBacktrack limitArg3Body r5 with
            | some g3 => some (v, g2, g3)
            | none => none
          | none => none
        | _ => none
    | _ => none

/-- `([^)]+)\s*\)` at a fixed position (second limit pattern). -/
def limArrowArg2Tail (s2 : List Char) : Option (List Char × List Char) :=
  match takeNonParen s2 with
  | ([], _) => none
  | (g2, t) =>
    match t with
    | ')' :: r6 => some (g2, r6)
    | _ => none

/-- One attempt of
`/lim\s*\(\s*(\w+)\s*(?:→|->)\s*([^)]+)\s*\)\s*(.+)/i`. -/
def limArrowAt (s : List Char) : Option (List Char × List Char × List Char) :=
  match ciPrefixDrop "lim".data s with
  | none => none
  | some r1 =>
    match dropWs r1 with
    | '(' :: r2 =>
      match takeWord (dropWs r2) with
      | ([], _) => none
      | (v, r3) =>
        match (match dropWs r3 with
               | '→' :: t => some t
               | '-' :: '>' :: t => some t
               | _ => none) with
        | none => none
        | some r5 =>
          match wsBacktrack limArrowArg2Tail r5 with
          | none => none
          | some (g2, r6) =>
            match takeDot (dropWs r6) with
            | ([], _) => none
            | (g3, _) => some (v, g2, g3)
    | _ => none

/-- `parseLimitInput` (lines 374–396). -/
def parseLimitInput (equation : String) :
    Except String (String × String × String) :=
  match scanFirst limitCallAt equation.data with
  | some (v, a, f) =>
    .ok (jsTrim (String.mk v), jsTrim (String.mk a), jsTrim (String.mk f))
  | none =>
  match scanFirst limArrowAt equation.data with
  | some (v, a, f) =>
    .ok (jsTrim (String.mk v), jsTrim (String.mk a), jsTrim (String.mk f))
  | none => .error "Invalid limit syntax. Use: limit(variable, approach, function)"

/-! ## The solver (mathSolver.js lines 169–305 and 399–508)

The external math.js library (`parse`, `derivative`, `simplify`,
`evaluate`, `solve`) is an opaque dependency: each call either throws
(modelled `Except.error` with the message) or returns a value.  Returned
expression nodes are modelled by their rendered string (`toString` is the
only operation the source applies to them); JS numbers returned by
`evaluate` are modelled by the attributes the source inspects
(`typeof`, `isFinite`, `Number.isInteger`, `toString`, the
`parseFloat(x.toFixed(10))` rounding); the float rendering of the one
internal division `coeff / newPower` is likewise an oracle field. -/

/-- A step record `{step, description, expression, explanation}`. -/
structure MathStep where
  step : ℕ
  description : String
  expression : String
  explanation : String
  deriving Repr, DecidableEq

/-- The uniform result object.  `error` is `none` on the success results
(`createSuccessResult` sets no `error` field). -/
structure MathResult where
  steps : List MathStep
  finalAnswer : String
  type : String
  success : Bool
  error : Option String
  deriving Repr, DecidableEq

/-- A JS value as returned by math.js `evaluate`, reduced to the
attributes the source inspects. -/
structure JsVal where
  isNumber : Bool
  isFiniteVal : Bool
  isIntegerVal : Bool
  display : String
  roundedDisplay : String
  deriving Repr, DecidableEq

/-- A value returned by math.js `solve`: an array of solutions (each
modelled by its rendered string) or any other value (modelled by its JS
truthiness and its rendering). -/
inductive SolveVal where
  | arr (sols : List String)
  | scalar (truthy : Bool) (display : String)
  deriving Repr, DecidableEq

/-- The opaque external dependencies of mathSolver.js. -/
structure MathJS where
  parse : String → Except String String
  derivative : String → String → Except String String
  simplify : String → Except String String
  evaluate : String → Except String JsVal
  solve : String → String → Except String SolveVal
  divDisplay : ℕ → ℕ → String

/-- `createStep` (lines 488–493). -/
def createStep (step : ℕ) (description expression explanation : String) :
    MathStep :=
  { step := step, description := description, expression := expression,
    explanation := explanation }

/-- `createSuccessResult` (lines 495–500). -/
def createSuccessResult (steps : List MathStep) (finalAnswer type : String) :
    MathResult :=
  { steps := steps, finalAnswer := finalAnswer, type := type,
    success := true, error := none }

/-- `createErrorResult` (lines 502–508): empty steps, empty final answer,
`success: false` and the error message. -/
def createErrorResult (type error : String) : MathResult :=
  { steps := [], finalAnswer := "", type := type, success := false,
    error := some error }

/-- `Array.prototype.join`. -/
def joinSep (sep : String) : List String → String
  | [] => ""
  | [x] => x
  | x :: y :: xs => x ++ sep ++ joinSep sep (y :: xs)

/-- String conversion of a solve result (`${solutions}` uses
`Array.prototype.toString`, i.e. `join(",")`). -/
def solveValInterp : SolveVal → String
  | .arr xs => joinSep "," xs
  | .scalar _ d => d

/-- JS truthiness of a solve result (an array is always truthy). -/
def solveValTruthy : SolveVal → Bool
  | .arr _ => true
  | .scalar t _ => t

/-- `addDerivativeRules` (lines 399–412): append narration steps chosen
by regex tests on the function text. -/
def addDerivativeRules (steps : List MathStep) (func : String)
    (_varName : String) : List MathStep :=
  let s1 := if jsIncludes func "^" then
      steps ++ [createStep (steps.length + 1) "Power rule"
        "d/dx[x^n] = n*x^(n-1)" "Apply power rule"]
    else steps
  let s2 := if jsIncludes func "sin" || jsIncludes func "cos" || jsIncludes func "tan" then
      s1 ++ [createStep (s1.length + 1) "Trigonometric rules"
        "d/dx[sin(x)] = cos(x), d/dx[cos(x)] = -sin(x)"
        "Apply trigonometric differentiation"]
    else s1
  let s3 := if jsIncludes func "ln" || jsIncludes func "log" then
      s2 ++ [createStep (s2.length + 1) "Logarithmic rule" "d/dx[ln(x)] = 1/x"
        "Apply logarithmic differentiation"]
    else s2
  if jsIncludes func "exp" || jsIncludes func "e^" then
    s3 ++ [createStep (s3.length + 1) "Exponential rule" "d/dx[e^x] = e^x"
      "Apply exponential differentiation"]
  else s3

/-- `solveDerivative` (lines 188–206); the single catch block receives
whichever of the parse steps or math.js calls throws first. -/
def solveDerivative (mj : MathJS) (equation : String) : MathResult :=
  match parseDerivativeInput equation with
  | .error e => createErrorResult "derivative" e
  | .ok (func, varName) =>
    let steps0 := [createStep 1 "Original function"
      ("f(" ++ varName ++ ") = " ++ func) "Starting with the given function"]
    match mj.parse func with
    | .error e => createErrorResult "derivative" e
    | .ok parsed =>
      match mj.derivative parsed varName with
      | .error e => createErrorResult "derivative" e
      | .ok derivResult =>
        match mj.simplify derivResult with
        | .error e => createErrorResult "derivative" e
        | .ok simplified =>
          let steps1 := addDerivativeRules steps0 func varName
          let steps2 := steps1 ++ [createStep (steps1.length + 1)
            "Apply differentiation"
            ("f\x27(" ++ varName ++ ") = " ++ simplified)
            "Computing the derivative"]
          createSuccessResult steps2 simplified "derivative"

/-- `\*?VAR\^(\d+)` at a fixed position (with the `\*?` backtracking);
returns the exponent digits.  Case-sensitive: this regex has no `i` flag. -/
def starVarCaret (varName s : List Char) : Option (List Char) :=
  let attempt := fun (t : List Char) =>
    if varName.isPrefixOf t then
      match t.drop varName.length with
      | '^' :: u =>
        match takeDigits u with
        | ([], _) => none
        | (ds, _) => some ds
      | _ => none
    else none
  match s with
  | '*' :: t =>
    match attempt t with
    | some ds => some ds
    | none => attempt s
  | _ => attempt s

/-- `(\d*)?\*?VAR\^(\d+)` at a fixed position: greedy digits first, then
backtrack; returns (coefficient digits, exponent digits). -/
def powerGo (varName s : List Char) : ℕ → Option (List Char × List Char)
  | 0 =>
    (match starVarCaret varName s with
     | some ds => some ([], ds)
     | none => none)
  | l + 1 =>
    match starVarCaret varName (s.drop (l + 1)) with
    | some ds => some (s.take (l + 1), ds)
    | none => powerGo varName s l

/-- `func.match(new RegExp((\d*)?\*?VAR\^(\d+)))`. -/
def powerPattern (varName func : List Char) : Option (List Char × List Char) :=
  scanFirst (fun s => powerGo varName s (takeDigits s).1.length) func

/-- `solveIntegralByPattern` (lines 414–455): pattern cases appending
steps and building the result string. -/
def solveIntegralByPattern (mj : MathJS) (func varName : String)
    (steps : List MathStep) : List MathStep × String :=
  match powerPattern varName.data func.data with
  | some (cds, pds) =>
    let coeff : ℕ := if cds.isEmpty then 1 else digitsToNat cds
    let power : ℕ := digitsToNat pds
    let newPower := power + 1
    let steps2 := steps ++ [createStep (steps.length + 1) "Power rule"
      "∫x^n dx = x^(n+1)/(n+1) + C" "Apply power rule for integration"]
    let result := if (coeff : ℚ) / (newPower : ℚ) = 1 then
        varName ++ "^" ++ toString newPower
      else
        mj.divDisplay coeff newPower ++ "*" ++ varName ++ "^" ++ toString newPower
    (steps2, result ++ " + C")
  | none =>
  if func == varName then
    (steps ++ [createStep (steps.length + 1) "Linear function"
      "∫x dx = x²/2 + C" "Integrate linear function"],
     varName ++ "^2/2 + C")
  else if !(jsIncludes func varName) then
    (steps ++ [createStep (steps.length + 1) "Constant rule" "∫c dx = c*x + C"
      "Integrate constant"],
     func ++ "*" ++ varName ++ " + C")
  else if jsIncludes func "sin" then
    (steps ++ [createStep (steps.length + 1) "Sine integration"
      "∫sin(x) dx = -cos(x) + C" "Integrate sine"],
     "-cos(" ++ varName ++ ") + C")
  else if jsIncludes func "cos" then
    (steps ++ [createStep (steps.length + 1) "Cosine integration"
      "∫cos(x) dx = sin(x) + C" "Integrate cosine"],
     "sin(" ++ varName ++ ") + C")
  else
    (steps ++ [createStep (steps.length + 1) "Complex integration"
      "Advanced techniques required"
      "This integral requires more advanced methods"],
     "∫" ++ func ++ " d" ++ varName ++ " + C (requires advanced techniques)")

/-- `solveIntegral` (lines 208–218). -/
def solveIntegral (mj : MathJS) (equation : String) : MathResult :=
  match parseIntegralInput equation with
  | .error e => createErrorResult "integral" e
  | .ok (func, varName) =>
    let steps := [createStep 1 "Setup integral"
      ("∫ " ++ func ++ " d" ++ varName) "Setting up the integral"]
    let sr := solveIntegralByPattern mj func varName steps
    createSuccessResult sr.1 sr.2 "integral"

/-- `solveEquationManually` (lines 457–485).  The linear-pattern regex
`(-?\d*)?\*?VAR\s*([+-]\s*\d+)?` matches iff the variable occurs in the
expression (every other component is optional); the inner `solve` calls
are wrapped in `try {} catch {}` with fall-through; the quadratic step
push persists into the final fallback. -/
def solveEquationManually (mj : MathJS) (expr varName : String)
    (steps : List MathStep) : MathResult :=
  let tryLinear :=
    if jsIncludes expr varName && !(jsIncludes expr "^") &&
        !(jsIncludes expr ("*" ++ varName ++ "*")) then
      match mj.solve expr varName with
      | .ok sols =>
        if solveValTruthy sols then
          some (createSuccessResult
            (steps ++ [createStep 2 "Linear equation" "Isolate the variable"
              "Solve linear equation"])
            (varName ++ " = " ++ solveValInterp sols) "equation")
        else none
      | .error _ => none
    else none
  match tryLinear with
  | some r => r
  | none =>
    let steps2 := if jsIncludes expr "^2" then
        steps ++ [createStep 2 "Quadratic equation"
          "Use quadratic formula or factoring" "Solve quadratic equation"]
      else steps
    let tryQuad :=
      if jsIncludes expr "^2" then
        match mj.solve expr varName with
        | .ok (.arr sols) =>
          some (createSuccessResult steps2
            (varName ++ " = " ++ joinSep ", " sols) "equation")
        | .ok (.scalar _ _) => none
        | .error _ => none
      else none
    match tryQuad with
    | some r => r
    | none =>
      createSuccessResult
        (steps2 ++ [createStep 2 "Complex equation"
          "Advanced algebraic techniques required"
          "Equation requires specialized methods"])
        "Solution requires advanced techniques" "equation"

/-- `solveMathEquation` (lines 220–251). -/
def solveMathEquation (mj : MathJS) (equation : String) : MathResult :=
  match parseSolveInput equation with
  | .error e => createErrorResult "equation" e
  | .ok (expr, varName) =>
    let steps := [createStep 1 "Original equation" expr
      "Starting equation to solve"]
    match mj.solve expr varName with
    | .ok (.arr sols) =>
      let steps2 := steps ++ [createStep 2 "Apply solving methods"
        ("Solutions for " ++ varName) "Finding all solutions"]
      let solutionStr := joinSep ", " sols
      let steps3 := steps2 ++ [createStep 3 "Solutions found" solutionStr
        ("Found " ++ toString sols.length ++ " solution(s)")]
      createSuccessResult steps3 (varName ++ " = " ++ solutionStr) "equation"
    | .ok (.scalar _ d) =>
      let steps2 := steps ++ [createStep 2 "Solution" d
        "Single solution found"]
      createSuccessResult steps2 (varName ++ " = " ++ d) "equation"
    | .error _ => solveEquationManually mj expr varName steps

/-- `solveLimit` (lines 253–276). -/
def solveLimit (mj : MathJS) (equation : String) : MathResult :=
  match parseLimitInput equation with
  | .error e => createErrorResult "limit" e
  | .ok (varName, approach, func) =>
    let steps := [createStep 1 "Setup limit"
      ("lim(" ++ varName ++ " → " ++ approach ++ ") " ++ func)
      "Setting up the limit"]
    let substituted := jsReplaceAll func varName ("(" ++ approach ++ ")")
    match mj.evaluate substituted with
    | .ok v =>
      if v.isFiniteVal then
        let steps2 := steps ++ [createStep 2 "Direct substitution"
          ("Substitute " ++ varName ++ " = " ++ approach)
          "Direct substitution works"]
        let steps3 := steps2 ++ [createStep 3 "Result" v.display "Limit value"]
        createSuccessResult steps3 v.display "limit"
      else
        createSuccessResult steps "Limit requires advanced techniques" "limit"
    | .error _ =>
      createSuccessResult
        (steps ++ [createStep 2 "Indeterminate form" "0/0 or ∞/∞ form"
          "Requires L\x27Hôpital\x27s rule or other techniques"])
        "Limit requires advanced techniques" "limit"

/-- `simplifyExpression` (lines 278–305).  The outer catch
(`createErrorResult "arithmetic"`) is unreachable: every operation of the
body either cannot throw or sits in an inner try/catch. -/
def simplifyExpression (mj : MathJS) (equation : String) : MathResult :=
  let steps := [createStep 1 "Original expression" equation
    "Starting expression"]
  let sr :=
    match (do
      let p ← mj.parse equation
      mj.simplify p : Except String String) with
    | .ok sstr =>
      (sstr, steps ++ [createStep 2 "Simplify" sstr "Algebraic simplification"])
    | .error _ => (equation, steps)
  match mj.evaluate equation with
  | .ok v =>
    if v.isNumber && v.isFiniteVal then
      let rounded := if v.isIntegerVal then v.display else v.roundedDisplay
      createSuccessResult
        (sr.2 ++ [createStep (sr.2.length + 1) "Numerical evaluation" rounded
          "Evaluated to numerical value"])
        rounded "arithmetic"
    else
      createSuccessResult sr.2 sr.1 "simplification"
  | .error _ => createSuccessResult sr.2 sr.1 "simplification"

/-- `solveMathExpression` (lines 169–181).  The outer catch
(`createErrorResult "general"`) is unreachable: `trim` and the regex
trigger tests cannot throw, and each handler catches its own errors. -/
def solveMathExpression (mj : MathJS) (equation : String) : MathResult :=
  let cleanEquation := jsTrim equation
  if isDerivativeOperation cleanEquation then solveDerivative mj cleanEquation
  else if isIntegralOperation cleanEquation then solveIntegral mj cleanEquation
  else if isSolveOperation cleanEquation then solveMathEquation mj cleanEquation
  else if isLimitOperation cleanEquation then solveLimit mj cleanEquation
  else simplifyExpression mj cleanEquation

/-! ## C9: uniform error results, no partial output on failure -/

/-- A result is failure-uniform when, if it is a failure at all, it has
empty steps, an empty final answer and carries an error message. -/
def ErrShape (r : MathResult) : Prop :=
  r.success = false →
    r.steps = [] ∧ r.finalAnswer = "" ∧ r.error.isSome = true

theorem errShape_success (steps : List MathStep) (a t : String) :
    ErrShape (createSuccessResult steps a t) := by
  intro h
  simp [createSuccessResult] at h

theorem errShape_error (t e : String) : ErrShape (createErrorResult t e) :=
  fun _ => ⟨rfl, rfl, rfl⟩

theorem errShape_solveDerivative (mj : MathJS) (eq : String) :
    ErrShape (solveDerivative mj eq) := by
  unfold solveDerivative
  repeat
    first
    | exact errShape_error _ _
    | exact errShape_success _ _ _
    | split
    | simp only []

theorem errShape_solveIntegral (mj : MathJS) (eq : String) :
    ErrShape (solveIntegral mj eq) := by
  unfold solveIntegral
  repeat
    first
    | exact errShape_error _ _
    | exact errShape_success _ _ _
    | split
    | simp only []

theorem errShape_solveEquationManually (mj : MathJS) (expr varName : String)
    (steps : List MathStep) :
    ErrShape (solveEquationManually mj expr varName steps) := by
  unfold solveEquationManually
  repeat
    first
    | exact errShape_error _ _
    | exact errShape_success _ _ _
    | split
    | simp only []

theorem errShape_solveMathEquation (mj : MathJS) (eq : String) :
    ErrShape (solveMathEquation mj eq) := by
  unfold solveMathEquation
  repeat
    first
    | exact errShape_error _ _
    | exact errShape_success _ _ _
    | exact errShape_solveEquationManually _ _ _ _
    | split
    | simp only []

theorem errShape_solveLimit (mj : MathJS) (eq : String) :
    ErrShape (solveLimit mj eq) := by
  unfold solveLimit
  repeat
    first
    | exact errShape_error _ _
    | exact errShape_success _ _ _
    | split
    | simp only []

theorem errShape_simplifyExpression (mj : MathJS) (eq : String) :
    ErrShape (simplifyExpression mj eq) := by
  unfold simplifyExpression
  repeat
    first
    | exact errShape_error _ _
    | exact errShape_success _ _ _
    | split
    | simp only []

/-- An oracle on which every external math.js call fails (which is even
reality for `solve`: mathjs exports no `solve`, so the destructured
binding is `undefined` and every call throws). -/
def failingMathJS : MathJS :=
  { parse := fun _ => .error "SyntaxError: unexpected end of expression"
    derivative := fun _ _ => .error "derivative failed"
    simplify := fun _ => .error "simplify failed"
    evaluate := fun _ => .error "evaluate failed"
    solve := fun _ _ => .error "solve is not a function"
    divDisplay := fun _ _ => "0" }

/-- **C9, counterexample.** The claim "whenever … the delegated math
evaluation fails, it returns the uniform error result {success:false, …}
with an empty steps list" is false of the code: on
`limit(x, 0, sin(x)/x)` the operation syntax parses, the delegated
`evaluate` call on the substituted expression throws, yet `solveLimit`
catches it and returns a success result (`success = true`) with a
non-empty step list and the fallback answer, not the error envelope. -/
theorem solveMathExpression_eval_failure_counterexample :
    failingMathJS.evaluate (jsReplaceAll "sin(x)/x" "x" "(0)") =
      Except.error "evaluate failed" ∧
    (solveMathExpression failingMathJS "limit(x, 0, sin(x)/x)").success = true ∧
    (solveMathExpression failingMathJS "limit(x, 0, sin(x)/x)").steps ≠ [] ∧
    (solveMathExpression failingMathJS "limit(x, 0, sin(x)/x)").finalAnswer =
      "Limit requires advanced techniques" := by
  refine ⟨rfl, by decide, by decide, by decide⟩

/-- **C9, amended.** `solveMathExpression` is a total function (the
embedding returns a `MathResult` for every oracle behaviour and input —
never an exception).  Whenever parsing of the operation syntax fails in
the dispatched handler, it returns exactly the uniform error envelope
`createErrorResult` of that handler's type — `{success:false,
error:<message>, type}` with empty steps and empty `finalAnswer` — and,
in general, every failure result it returns has exactly that shape: no
retry, no partial step list on failure.  (A failing *delegated math
evaluation*, by contrast, need not surface as a failure: the handlers
catch it and may return success fallbacks, per the counterexample.) -/
theorem solveMathExpression_failure_policy (mj : MathJS) (equation : String) :
    (∀ e, isDerivativeOperation (jsTrim equation) = true →
        parseDerivativeInput (jsTrim equation) = Except.error e →
        solveMathExpression mj equation = createErrorResult "derivative" e) ∧
    (∀ e, isDerivativeOperation (jsTrim equation) = false →
        isIntegralOperation (jsTrim equation) = true →
        parseIntegralInput (jsTrim equation) = Except.error e →
        solveMathExpression mj equation = createErrorResult "integral" e) ∧
    (∀ e, isDerivativeOperation (jsTrim equation) = false →
        isIntegralOperation (jsTrim equation) = false →
        isSolveOperation (jsTrim equation) = true →
        parseSolveInput (jsTrim equation) = Except.error e →
        solveMathExpression mj equation = createErrorResult "equation" e) ∧
    (∀ e, isDerivativeOperation (jsTrim equation) = false →
        isIntegralOperation (jsTrim equation) = false →
        isSolveOperation (jsTrim equation) = false →
        isLimitOperation (jsTrim equation) = true →
        parseLimitInput (jsTrim equation) = Except.error e →
        solveMathExpression mj equation = createErrorResult "limit" e) ∧
    ((solveMathExpression mj equation).success = false →
      (solveMathExpression mj equation).steps = [] ∧
      (solveMathExpression mj equation).finalAnswer = "" ∧
      (solveMathExpression mj equation).error.isSome = true) := by
  refine ⟨?_, ?_, ?_, ?_, ?_⟩
  · intro e hd hp
    unfold solveMathExpression
    simp only []
    rw [if_pos hd]
    unfold solveDerivative
    rw [hp]
  · intro e hd hi hp
    unfold solveMathExpression
    simp only []
    rw [if_neg (by simp [hd]), if_pos hi]
    unfold solveIntegral
    rw [hp]
  · intro e hd hi hs hp
    unfold solveMathExpression
    simp only []
    rw [if_neg (by simp [hd]), if_neg (by simp [hi]), if_pos hs]
    unfold solveMathEquation
    rw [hp]
  · intro e hd hi hs hl hp
    unfold solveMathExpression
    simp only []
    rw [if_neg (by simp [hd]), if_neg (by simp [hi]), if_neg (by simp [hs]),
      if_pos hl]
    unfold solveLimit
    rw [hp]
  · have hE : ErrShape (solveMathExpression mj equation) := by
      unfold solveMathExpression
      repeat
        first
        | exact errShape_solveDerivative _ _
        | exact errShape_solveIntegral _ _
        | exact errShape_solveMathEquation _ _
        | exact errShape_solveLimit _ _
        | exact errShape_simplifyExpression _ _
        | split
        | simp only []
    exact hE

/-- Concrete witness for C9 (amended): `derivative of x` triggers the
derivative handler, its operation-syntax parse fails, and the call
returns exactly the uniform error envelope with empty steps and empty
final answer. -/
theorem solveMathExpression_failure_policy_witness :
    isDerivativeOperation (jsTrim "derivative of x") = true ∧
    parseDerivativeInput (jsTrim "derivative of x") =
      Except.error "Invalid derivative syntax. Use: derivative(expression, variable)" ∧
    solveMathExpression failingMathJS "derivative of x" =
      createErrorResult "derivative"
        "Invalid derivative syntax. Use: derivative(expression, variable)" ∧
    (solveMathExpression failingMathJS "derivative of x").success = false ∧
    (solveMathExpression failingMathJS "derivative of x").steps = [] ∧
    (solveMathExpression failingMathJS "derivative of x").finalAnswer = "" := by
  refine ⟨by decide, rfl, ?_, by decide, ?_, ?_⟩
  · exact (solveMathExpression_failure_policy failingMathJS "derivative of x").1 _
      (by decide) rfl
  · exact ((solveMathExpression_failure_policy failingMathJS
      "derivative of x").2.2.2.2 (by decide)).1
  · exact ((solveMathExpression_failure_policy failingMathJS
      "derivative of x").2.2.2.2 (by decide)).2.1

end MathSolver
